import Mathlib

/-!
Verification development for the llm-wrapper gateway.

The Python sources are shallowly embedded as pure Lean functions:
  * SQLite tables become lists of row structures, threaded explicitly;
  * `json.loads` / `json.dumps` of the Python standard library are treated
    as an oracle `parse : String → Option Json`; emitted SSE strings are
    represented by the `Frame` inductive that records exactly what is
    yielded (an SSE data frame with a JSON body, the terminal
    `data: [DONE]` frame, or a bare JSON object yielded without SSE
    framing);
  * `datetime.now()` is an explicit `now : Nat` (seconds) plus
    `today : String` (ISO calendar date) parameter pair;
  * a stored `expiry` column is modelled as `Option Nat`: `some t` when the
    text parses with `strptime "%Y-%m-%d %H:%M:%S"` to timestamp `t`,
    `none` when parsing raises `ValueError`.
-/

namespace LLMWrapper

/-- Python/JSON values as handled by the gateway.  Objects are ordered
association lists, matching Python dict insertion order. -/
inductive Json where
  | null : Json
  | bool (b : Bool) : Json
  | num (n : Int) : Json
  | str (s : String) : Json
  | arr (xs : List Json) : Json
  | obj (fields : List (String × Json)) : Json
  deriving Repr

/-- `d.get k` of a Python dict: `some v` when the key is present (even with
value `None`), `none` when absent.  Non-dict values have no keys. -/
def Json.get : Json → String → Option Json
  | .obj fields, k => fields.lookup k
  | _, _ => none

/-- `d.get(k, default)` of a Python dict. -/
def Json.getD (j : Json) (k : String) (d : Json) : Json :=
  (j.get k).getD d

/-- A Python optional value as a JSON value (`None` becomes `null`). -/
def Json.ofOption : Option Json → Json
  | none => .null
  | some j => j

/-- Python truthiness of a JSON value. -/
def Json.truthy : Json → Bool
  | .null => false
  | .bool b => b
  | .num n => n != 0
  | .str s => s != ""
  | .arr xs => !xs.isEmpty
  | .obj fields => !fields.isEmpty

/-- Iterating a value expected to be a list; non-lists contribute nothing. -/
def Json.asArr : Json → List Json
  | .arr xs => xs
  | _ => []

/-- Reading a value expected to be a string; defaults to `""`. -/
def Json.asStr : Json → String
  | .str s => s
  | _ => ""

/-- Reading a value expected to be an integer; defaults to `0`. -/
def Json.asInt : Json → Int
  | .num n => n
  | _ => 0

/-- Python `d[k] = v` on a dict: replace the value in place when the key
exists, otherwise append the key at the end. -/
def objAssign (fields : List (String × Json)) (k : String) (v : Json) :
    List (String × Json) :=
  if fields.any (fun kv => kv.1 = k) then
    fields.map (fun kv => if kv.1 = k then (k, v) else kv)
  else
    fields ++ [(k, v)]

/-- Python `base.update(extra)` on dicts, key by key in `extra` order. -/
def dictUpdate (base extra : List (String × Json)) : List (String × Json) :=
  extra.foldl (fun acc kv => objAssign acc kv.1 kv.2) base

/-- `d[k] = v` at the `Json` level (identity on non-objects, which would
raise in Python; no claim exercises that path). -/
def Json.assign : Json → String → Json → Json
  | .obj fields, k, v => .obj (objAssign fields k v)
  | j, _, _ => j

/-- Python `s.startswith(pre)`, at the code-point level. -/
def pyStartsWith (s pre : String) : Bool :=
  pre.data.isPrefixOf s.data

/-- Python `s[n:]`. -/
def pyDrop (s : String) (n : Nat) : String :=
  ⟨s.data.drop n⟩

/-- Python `s[:n]`. -/
def pyTake (s : String) (n : Nat) : String :=
  ⟨s.data.take n⟩

/-- Python `s.strip()`: whitespace removed from both ends. -/
def pyStrip (s : String) : String :=
  ⟨(((s.data.dropWhile Char.isWhitespace).reverse).dropWhile
      Char.isWhitespace).reverse⟩

/-- Python `s.lower()`. -/
def pyLower (s : String) : String :=
  ⟨s.data.map Char.toLower⟩

/-! ## Credential store (`tokens` table) and the auth gate

Embeds `is_token_valid` of `llm-wrapper.py` and the identical
authentication prologue of the `/v1/chat/completions` and
`/v1/monitors/create` endpoints. -/

/-- One row of the `tokens` table (schema in `tokens/manage_tokens.py`).
`expiry` is `some t` when the stored text parses with
`strptime "%Y-%m-%d %H:%M:%S"` to timestamp `t`, `none` when parsing
raises `ValueError`. -/
structure TokenRow where
  token : String
  username : String
  expiry : Option Nat
  request_count : Nat
  rate_limit : Nat
  last_request_date : String
  lifetime_requests : Nat
  deriving Repr, DecidableEq

/-- The three results of `is_token_valid`: `(False, None)`,
`("rate_limited", username)` and `(True, username)`. -/
inductive ValidResult where
  | rejected : ValidResult
  | rateLimited (username : String) : ValidResult
  | accepted (username : String) : ValidResult
  deriving Repr, DecidableEq

/-- The daily count used for the quota check: reset to 0 when
`last_request_date != today`. -/
def effectiveCount (row : TokenRow) (today : String) : Nat :=
  if row.last_request_date ≠ today then 0 else row.request_count

/-- The `UPDATE tokens SET request_count=?, last_request_date=?,
lifetime_requests=? WHERE token=?` statement: every row whose `token`
matches is updated. -/
def updateTokenRow (db : List TokenRow) (tok : String) (rc : Nat)
    (today : String) (lt : Nat) : List TokenRow :=
  db.map (fun r =>
    if r.token = tok then
      { r with request_count := rc, last_request_date := today,
               lifetime_requests := lt }
    else r)

/-- `is_token_valid` of `llm-wrapper.py` (lines 197–232).  The SQLite
`SELECT ... WHERE token=?` with `fetchone` is the first matching row.
Returns the result together with the table after the call. -/
def is_token_valid (db : List TokenRow) (tok : String) (now : Nat)
    (today : String) : ValidResult × List TokenRow :=
  if tok = "" then (.rejected, db)
  else
    match db.find? (fun r => r.token = tok) with
    | none => (.rejected, db)
    | some row =>
      match row.expiry with
      | none => (.rejected, db)
      | some e =>
        if e ≤ now then (.rejected, db)
        else
          let request_count := effectiveCount row today
          if request_count ≥ row.rate_limit then
            (.rateLimited row.username, db)
          else
            (.accepted row.username,
             updateTokenRow db tok (request_count + 1) today
               (row.lifetime_requests + 1))

/-- Bearer-token extraction shared by both authenticated endpoints:
`token = authorization[7:].strip()` when the header is present and its
lowercase form starts with `"bearer "`; the later `if not token:` check in
`is_token_valid` treats the missing case like the empty string. -/
def extractBearer (authorization : Option String) : String :=
  match authorization with
  | none => ""
  | some a =>
    if pyStartsWith (pyLower a) "bearer " then pyStrip (pyDrop a 7) else ""

/-- Outcome of the authentication prologue of an endpoint. -/
inductive AuthGate where
  | http401 : AuthGate
  | http429 : AuthGate
  | proceed (username : String) : AuthGate
  deriving Repr, DecidableEq

/-- The authentication prologue of `chat_endpoint` (`llm-wrapper.py`
lines 258–266): extract the bearer token, run `is_token_valid`, map
`"rate_limited"` to HTTP 429 and a falsy result to HTTP 401. -/
def chatEndpointAuth (db : List TokenRow) (authorization : Option String)
    (now : Nat) (today : String) : AuthGate × List TokenRow :=
  match is_token_valid db (extractBearer authorization) now today with
  | (.rateLimited _, db') => (.http429, db')
  | (.rejected, db') => (.http401, db')
  | (.accepted u, db') => (.proceed u, db')

/-- The authentication prologue of `create_monitor_endpoint`
(`llm-wrapper.py` lines 389–397), textually identical to the one of
`chat_endpoint`. -/
def createMonitorAuth (db : List TokenRow) (authorization : Option String)
    (now : Nat) (today : String) : AuthGate × List TokenRow :=
  match is_token_valid db (extractBearer authorization) now today with
  | (.rateLimited _, db') => (.http429, db')
  | (.rejected, db') => (.http401, db')
  | (.accepted u, db') => (.proceed u, db')

/-! ## Provider adapters

Embeds the format conversion of `providers/anthropic_provider.py` and the
streaming pipelines of both `providers/llm_provider.py` and
`providers/anthropic_provider.py`.  `json.loads` is the oracle parameter
`parse`; a yielded string is recorded as a `Frame`. -/

/-- One unit yielded by a streaming generator.
`data body` is the string `"data: " ++ json.dumps body ++ "\n\n"`;
`done` is the string `"data: [DONE]\n\n"`;
`raw body` is a bare `json.dumps body` yielded with no SSE framing and no
trailing blank line (the error path of `LLMProvider._stream_completion`). -/
inductive Frame where
  | data (body : Json) : Frame
  | done : Frame
  | raw (body : Json) : Frame
  deriving Repr

/-- `msg.get("role") == "system"`: true exactly when the value is the
string `"system"`. -/
def roleIsSystem (msg : Json) : Bool :=
  match msg.get "role" with
  | some (.str r) => r = "system"
  | _ => false

/-- The message loop of `_convert_openai_to_anthropic` (lines 44–53):
every system-role message overwrites `system_content` with its content
(default `""`), every other message is appended to `filtered_messages` as
a fresh `{"role": …, "content": …}` dict. -/
def systemAndFiltered (messages : List Json) : Option Json × List Json :=
  messages.foldl
    (fun acc msg =>
      if roleIsSystem msg then (some (msg.getD "content" (.str "")), acc.2)
      else
        (acc.1,
         acc.2 ++ [Json.obj [("role", Json.ofOption (msg.get "role")),
                             ("content", Json.ofOption (msg.get "content"))]]))
    (none, [])

/-- `AnthropicProvider._convert_openai_to_anthropic` (lines 39–77).
`extra` is `self.payload_extra_options` (the `None` configuration case is
the empty list, for which `dict.update` is the identity). -/
def convert_openai_to_anthropic (extra : List (String × Json)) (p : Json) :
    Json :=
  let messages := (p.getD "messages" (.arr [])).asArr
  let sysFilt := systemAndFiltered messages
  let base := [("model", Json.ofOption (p.get "model")),
               ("messages", Json.arr sysFilt.2),
               ("max_tokens", p.getD "max_tokens" (.num 4096))]
  let base :=
    match sysFilt.1 with
    | some sc => if sc.truthy then objAssign base "system" sc else base
    | none => base
  let base :=
    match p.get "temperature" with
    | some t => objAssign base "temperature" t
    | none => base
  let base :=
    match p.get "top_p" with
    | some t => objAssign base "top_p" t
    | none => base
  let base :=
    match p.get "stream" with
    | some t => objAssign base "stream" t
    | none => base
  Json.obj (dictUpdate base extra)

/-- `block.get("type") == "text"`. -/
def blockIsText (b : Json) : Bool :=
  match b.get "type" with
  | some (.str t) => t = "text"
  | _ => false

/-- The content loop of `_convert_anthropic_to_openai` (lines 81–86):
start from `""`; when `anthropic_response.get("content")` is truthy,
append `block.get("text", "")` for every block whose type is `"text"`. -/
def anthropicContentText (resp : Json) : String :=
  let c := Json.ofOption (resp.get "content")
  if c.truthy then
    c.asArr.foldl
      (fun acc b => if blockIsText b then acc ++ (b.getD "text" (.str "")).asStr
                    else acc)
      ""
  else ""

/-- `AnthropicProvider._map_stop_reason` (lines 112–119): dictionary
lookup with default `"stop"`, applied to the Python value (possibly
`None`) of the stop reason. -/
def map_stop_reason : Option Json → String
  | some (.str "end_turn") => "stop"
  | some (.str "max_tokens") => "length"
  | some (.str "stop_sequence") => "stop"
  | _ => "stop"

/-- `AnthropicProvider._convert_anthropic_to_openai` (lines 79–110).
`now` is `int(time.time())`; `model` is the value passed by
`chat_completion` (`payload.get("model")`, already `null` when absent). -/
def convert_anthropic_to_openai (now : Nat) (resp : Json) (model : Json) :
    Json :=
  let content := anthropicContentText resp
  let usage := resp.getD "usage" (.obj [])
  let inTok := usage.getD "input_tokens" (.num 0)
  let outTok := usage.getD "output_tokens" (.num 0)
  Json.obj
    [("id", resp.getD "id" (.str ("chatcmpl-" ++ toString now))),
     ("object", .str "chat.completion"),
     ("created", .num now),
     ("model", model),
     ("choices", .arr
       [Json.obj
         [("index", .num 0),
          ("message", .obj [("role", .str "assistant"),
                            ("content", .str content)]),
          ("finish_reason", .str (map_stop_reason (resp.get "stop_reason")))]]),
     ("usage", .obj
       [("prompt_tokens", inTok),
        ("completion_tokens", outTok),
        ("total_tokens", .num (inTok.asInt + outTok.asInt))])]

/-- `LLMProvider.normalize_response` (`providers/llm_provider.py`
lines 115–127, identical in `llm-wrapper.py`).  `name` is the provider
name, `now` is `int(time.time())`.  `none` is the Python `return None`
(frame suppressed). -/
def normalize_response (name : String) (now : Nat) (response : Json) :
    Option Json :=
  let step :=
    match response.get "choices" with
    | none =>
      some (response.assign "choices"
        (.arr [.obj [("message", .obj [("role", .str "assistant"),
                                       ("content", .str "")])]]))
    | some choices =>
      if name = "Perplexity Sonar" then
        match choices with
        | .arr (h :: _) =>
          let delta := Json.ofOption (h.get "delta")
          if delta.truthy then
            some (response.assign "choices"
              (.arr [.obj [("index", .num 0), ("delta", delta)]]))
          else none
        | _ => none
      else some response
  match step with
  | none => none
  | some r =>
    some ((r.assign "created" (.num now)).assign "model"
      (r.getD "model" (.str "unknown")))

/-- `LLMProvider.process_streaming_chunk` (`providers/llm_provider.py`
lines 99–113, identical in `llm-wrapper.py` lines 126–140).  A parse
failure of the oracle is the caught `json.JSONDecodeError`. -/
def process_streaming_chunk (parse : String → Option Json) (name : String)
    (now : Nat) (chunk : String) : Option Frame :=
  if pyStartsWith chunk "data: " then
    let data := pyStrip (pyDrop chunk 6)
    if data = "[DONE]" then some .done
    else
      match parse data with
      | none => none
      | some parsed =>
        match normalize_response name now parsed with
        | some normalized => some (.data normalized)
        | none => none
  else none

/-- `LLMProvider._stream_completion` (`providers/llm_provider.py`
lines 82–97).  `lines` are the upstream lines delivered before the stream
ended; `failure = some e` means an `httpx.HTTPError` was raised after
those lines, in which case the generator yields the bare
`json.dumps({"error": str(e)})` — with no SSE framing and no terminal
frame — and stops. -/
def llm_stream (parse : String → Option Json) (name : String) (now : Nat)
    (lines : List String) (failure : Option String) : List Frame :=
  lines.filterMap (process_streaming_chunk parse name now)
    ++ match failure with
       | some e => [.raw (.obj [("error", .str e)])]
       | none => []

/-- The normalized chat-completion chunk built at each Anthropic stream
event (`anthropic_provider.py` lines 198–244). -/
def openaiChunk (id : String) (now : Nat) (model : Json) (delta : Json)
    (finish : Json) : Json :=
  .obj [("id", .str id), ("object", .str "chat.completion.chunk"),
        ("created", .num now), ("model", model),
        ("choices", .arr [.obj [("index", .num 0), ("delta", delta),
                                ("finish_reason", finish)]])]

/-- One iteration of the line loop of
`AnthropicProvider._stream_completion` (lines 180–251): blank lines and
`event:` lines produce nothing; a `data:` line is split at the first
colon, stripped and parsed (a `json.JSONDecodeError` is caught and
skipped); the four recognized `type` values produce one frame each and
everything else produces nothing.  Since the line starts with `"data:"`,
`line.split(":", 1)[1]` is `line[5:]`. -/
def anthropic_process_line (parse : String → Option Json)
    (message_id : String) (now : Nat) (model : Json) (line : String) :
    Option Frame :=
  if pyStrip line = "" then none
  else if pyStartsWith line "event:" then none
  else if pyStartsWith line "data:" then
    let data_str := pyStrip (pyDrop line 5)
    match parse data_str with
    | none => none
    | some d =>
      match d.get "type" with
      | some (.str t) =>
        if t = "message_start" then
          some (.data (openaiChunk message_id now model
            (.obj [("role", .str "assistant"), ("content", .str "")]) .null))
        else if t = "content_block_delta" then
          let delta := d.getD "delta" (.obj [])
          match delta.get "type" with
          | some (.str dt) =>
            if dt = "text_delta" then
              some (.data (openaiChunk message_id now model
                (.obj [("content", delta.getD "text" (.str ""))]) .null))
            else none
          | _ => none
        else if t = "message_delta" then
          match (d.getD "delta" (.obj [])).get "stop_reason" with
          | some sr =>
            if sr.truthy then
              some (.data (openaiChunk message_id now model (.obj [])
                (.str (map_stop_reason (some sr)))))
            else none
          | none => none
        else if t = "message_stop" then some .done
        else none
      | _ => none
  else none

/-- `AnthropicProvider._stream_completion` (lines 164–270).  `lines` are
the upstream SSE lines delivered before the stream ended; `failure =
some e` means an `httpx.HTTPError` (transport error or
`raise_for_status`) was raised after those lines, in which case the
`except` block yields one error chunk (delta content `"Error: " ++ e`,
finish reason `"stop"`) followed by the terminal frame. -/
def anthropic_stream (parse : String → Option Json) (message_id : String)
    (now : Nat) (model : Json) (lines : List String)
    (failure : Option String) : List Frame :=
  lines.filterMap (anthropic_process_line parse message_id now model)
    ++ match failure with
       | some e =>
         [.data (openaiChunk ("chatcmpl-" ++ toString now) now model
            (.obj [("content", .str ("Error: " ++ e))]) (.str "stop")),
          .done]
       | none => []

/-! ## Monitor event store (`monitor_event_groups` table)

Embeds `monitor/manage_monitor_db.py` and the webhook / pull endpoints of
`llm-wrapper.py` that drive it.  `received_at` (an ISO-8601 UTC text whose
lexicographic SQL ordering is chronological) is modelled as a `Nat`. -/

/-- One row of the `monitor_event_groups` table. -/
structure EventGroupRow where
  username : String
  monitor_id : String
  event_group_id : String
  metadata : Option String
  received_at : Nat
  processed : Bool
  deriving Repr, DecidableEq

/-- The whole durable state: the `tokens` table and the
`monitor_event_groups` table of the single SQLite database. -/
structure MonitorDB where
  tokens : List TokenRow
  groups : List EventGroupRow
  deriving Repr, DecidableEq

/-- `username_exists` (`manage_monitor_db.py` lines 33–45):
`SELECT 1 FROM tokens WHERE username = ? LIMIT 1`. -/
def username_exists (tokens : List TokenRow) (username : String) : Bool :=
  tokens.any (fun r => r.username = username)

/-- The `INSERT OR IGNORE` against the `event_group_id UNIQUE` constraint:
the row is appended only when no row with the same `event_group_id`
exists; the returned flag is `c.rowcount > 0`. -/
def insertOrIgnoreGroup (groups : List EventGroupRow) (row : EventGroupRow) :
    Bool × List EventGroupRow :=
  if groups.any (fun r => r.event_group_id = row.event_group_id) then
    (false, groups)
  else
    (true, groups ++ [row])

/-- `save_event_group` (`manage_monitor_db.py` lines 102–121): reject an
empty or unknown username, otherwise insert-or-ignore a fresh
`processed = 0` row.  `receivedAt` is `datetime.utcnow().isoformat()`.
Returns the stored flag and the table after the call. -/
def save_event_group (db : MonitorDB) (username monitor_id event_group_id :
    String) (metadata : Option String) (receivedAt : Nat) :
    Bool × MonitorDB :=
  if username = "" then (false, db)
  else if ¬ username_exists db.tokens username then (false, db)
  else
    let res := insertOrIgnoreGroup db.groups
      { username := username, monitor_id := monitor_id,
        event_group_id := event_group_id, metadata := metadata,
        received_at := receivedAt, processed := false }
    (res.1, { db with groups := res.2 })

/-- `get_username_by_monitor_id` (lines 139–152): the username of the
first row carrying the monitor id, if any. -/
def get_username_by_monitor_id (groups : List EventGroupRow)
    (monitor_id : String) : Option String :=
  (groups.find? (fun r => r.monitor_id = monitor_id)).map (·.username)

/-- `mark_event_group_processed` (lines 219–225): `UPDATE … SET
processed = 1 WHERE event_group_id = ?`. -/
def mark_event_group_processed (db : MonitorDB) (event_group_id : String) :
    MonitorDB :=
  { db with groups := db.groups.map (fun r =>
      if r.event_group_id = event_group_id then { r with processed := true }
      else r) }

/-- `fetch_unprocessed_event_groups` (lines 124–136): `SELECT … WHERE
username = ? AND processed = 0 ORDER BY received_at ASC`.  The sort is the
stable insertion sort on `received_at`. -/
def fetch_unprocessed_event_groups (groups : List EventGroupRow)
    (username : String) : List EventGroupRow :=
  (groups.filter (fun r => r.username = username ∧ r.processed = false)
    ).insertionSort (fun a b => a.received_at ≤ b.received_at)

/-- The fields `parallel_monitor_webhook` reads out of the request body:
`payload.get("data", {}).get("monitor_id")`,
`….get("event", {}).get("event_group_id")` and `….get("metadata")`, each
absent-or-string (`some ""` stands for a present falsy string). -/
structure WebhookPayload where
  monitor_id : Option String
  event_group_id : Option String
  metadata : Option String
  deriving Repr, DecidableEq

/-- Python truthiness of an optional string. -/
def optTruthy : Option String → Bool
  | none => false
  | some s => s ≠ ""

/-- The response bodies of `parallel_monitor_webhook`; every one of them
is sent with HTTP status 200. -/
inductive WebhookResp where
  | receivedMissing : WebhookResp
  | receivedUnknownMonitor (monitor_id : String) : WebhookResp
  | stored (event_group_id : String) : WebhookResp
  | receivedDuplicate (event_group_id : String) : WebhookResp
  deriving Repr, DecidableEq

/-- The HTTP status code of a webhook response: always 200. -/
def WebhookResp.status : WebhookResp → Nat
  | _ => 200

/-- `parallel_monitor_webhook` (`llm-wrapper.py` lines 317–377): missing
ids are acknowledged without storing; an unknown monitor id is
acknowledged without storing; otherwise `save_event_group` runs and both
the stored and the duplicate outcome are acknowledged with status 200. -/
def parallel_monitor_webhook (db : MonitorDB) (payload : WebhookPayload)
    (receivedAt : Nat) : WebhookResp × MonitorDB :=
  if ¬ optTruthy payload.event_group_id ∨ ¬ optTruthy payload.monitor_id then
    (.receivedMissing, db)
  else
    let monitor_id := payload.monitor_id.getD ""
    let event_group_id := payload.event_group_id.getD ""
    match get_username_by_monitor_id db.groups monitor_id with
    | none => (.receivedUnknownMonitor monitor_id, db)
    | some username =>
      let res := save_event_group db username monitor_id event_group_id
        payload.metadata receivedAt
      if res.1 then (.stored event_group_id, res.2)
      else (.receivedDuplicate event_group_id, res.2)

/-! ## Streaming stored monitor events (`stream_monitor_events`) -/

/-- The fields read out of one element of `events_payload["events"]`
(each via `.get` with the shown defaults). -/
structure MonitorEvent where
  output : String
  event_date : String
  source_urls : List String
  deriving Repr, DecidableEq

/-- The outcome of the upstream fetch
`client.get(url)` / `raise_for_status` / `response.json()` for one event
group: `ok` is a 2xx response whose JSON body held the given event list
(`events_payload.get("events", [])`); `httpError` is a raised
`httpx.HTTPError` (transport error, timeout or non-2xx status), which the
`except` clause turns into an inline error chunk; `badJson` is a 2xx
response whose body is not valid JSON, so `response.json()` raises a
`json.JSONDecodeError` that no `except` clause catches and the generator
dies. -/
inductive FetchResult where
  | ok (events : List MonitorEvent) : FetchResult
  | httpError (msg : String) : FetchResult
  | badJson : FetchResult
  deriving Repr, DecidableEq

/-- `formatted_content` for one event (`llm-wrapper.py` lines 518–524). -/
def format_event (e : MonitorEvent) : String :=
  let base := "Event Date: " ++ e.event_date ++ "\n\n" ++ e.output
  if e.source_urls.isEmpty then base
  else base ++ "\n\nSources: " ++ String.intercalate ", " e.source_urls

/-- The chunk emitted for event number `idx` of a group
(lines 526–542): trailing separator and `finish_reason` depend on whether
it is the last event of the group. -/
def monitorEventChunk (event_group_id : String) (now : Nat) (idx : Nat)
    (isLast : Bool) (e : MonitorEvent) : Json :=
  .obj [("id", .str ("chatcmpl-" ++ pyTake event_group_id 8 ++ "-" ++
          toString idx)),
        ("object", .str "chat.completion.chunk"),
        ("created", .num now),
        ("model", .str "monitor-updates"),
        ("choices", .arr [.obj
          [("index", .num 0),
           ("delta", .obj [("role", .str "assistant"),
             ("content", .str (format_event e ++
               (if isLast then "" else "\n\n---\n\n")))]),
           ("finish_reason", if isLast then .str "stop" else .null)]])]

/-- The frames for every event of one fetched group, in list order. -/
def groupEventFrames (event_group_id : String) (now : Nat)
    (events : List MonitorEvent) : List Frame :=
  (List.range events.length).zip events |>.map
    (fun p => .data (monitorEventChunk event_group_id now p.1
      (p.1 = events.length - 1) p.2))

/-- The inline error chunk for a failed fetch (lines 544–559). -/
def fetchErrorChunk (now : Nat) (event_group_id msg : String) : Json :=
  .obj [("id", .str "chatcmpl-error"),
        ("object", .str "chat.completion.chunk"),
        ("created", .num now),
        ("model", .str "monitor-updates"),
        ("choices", .arr [.obj
          [("index", .num 0),
           ("delta", .obj [("role", .str "assistant"),
             ("content", .str ("Error: Failed to fetch events for " ++
               event_group_id ++ ": " ++ msg))]),
           ("finish_reason", .null)]])]

/-- The per-group loop of `stream_monitor_events` (lines 508–559).
On `ok` the event frames are emitted (possibly none) and the group is
marked processed, then the loop continues; on `httpError` one inline
error chunk is emitted and the loop continues with the group left
unprocessed; on `badJson` the uncaught exception kills the generator:
nothing further is emitted (the returned flag records whether the loop
ran to completion). -/
def process_groups (fetch : String → String → FetchResult) (now : Nat) :
    List EventGroupRow → MonitorDB → List Frame × MonitorDB × Bool
  | [], db => ([], db, true)
  | g :: rest, db =>
    match fetch g.monitor_id g.event_group_id with
    | .ok events =>
      let frames := groupEventFrames g.event_group_id now events
      let db' := mark_event_group_processed db g.event_group_id
      let res := process_groups fetch now rest db'
      (frames ++ res.1, res.2)
    | .httpError msg =>
      let res := process_groups fetch now rest db
      (Frame.data (fetchErrorChunk now g.event_group_id msg) :: res.1, res.2)
    | .badJson => ([], db, false)

/-- The "no API key" error chunk (lines 470–481). -/
def noApiKeyChunk (now : Nat) : Json :=
  .obj [("id", .str "chatcmpl-error"),
        ("object", .str "chat.completion.chunk"),
        ("created", .num now),
        ("model", .str "monitor-updates"),
        ("choices", .arr [.obj
          [("index", .num 0),
           ("delta", .obj [("role", .str "assistant"),
             ("content", .str "Error: PARALLELAI_API_KEY not set")]),
           ("finish_reason", .null)]])]

/-- The "no pending events" chunk (lines 487–498). -/
def noEventsChunk (now : Nat) : Json :=
  .obj [("id", .str "chatcmpl-info"),
        ("object", .str "chat.completion.chunk"),
        ("created", .num now),
        ("model", .str "monitor-updates"),
        ("choices", .arr [.obj
          [("index", .num 0),
           ("delta", .obj [("role", .str "assistant"),
             ("content", .str "No pending monitor events.")]),
           ("finish_reason", .str "stop")]])]

/-- `stream_monitor_events` (`llm-wrapper.py` lines 465–560).
`api_key` is `os.getenv("PARALLELAI_API_KEY")`; `fetch` is the oracle for
the upstream monitor API.  Returns the emitted frames and the database
after the call. -/
def stream_monitor_events (fetch : String → String → FetchResult)
    (now : Nat) (api_key : Option String) (db : MonitorDB)
    (username : String) : List Frame × MonitorDB :=
  if ¬ optTruthy api_key then
    ([.data (noApiKeyChunk now), .done], db)
  else
    let event_groups := fetch_unprocessed_event_groups db.groups username
    if event_groups.isEmpty then
      ([.data (noEventsChunk now), .done], db)
    else
      let res := process_groups fetch now event_groups db
      if res.2.2 then (res.1 ++ [.done], res.2.1)
      else (res.1, res.2.1)

/-! ## Sample data used by witnesses -/

/-- A stored credential sitting exactly at its daily limit. -/
def aliceRow : TokenRow :=
  { token := "T1", username := "alice", expiry := some 100,
    request_count := 5, rate_limit := 5,
    last_request_date := "2026-10-12", lifetime_requests := 7 }

/-- A stored credential with quota to spare. -/
def bobRow : TokenRow :=
  { token := "T2", username := "bob", expiry := some 100,
    request_count := 2, rate_limit := 5,
    last_request_date := "2026-10-12", lifetime_requests := 9 }

/-- The registration placeholder row mapping monitor `M1` to `alice`. -/
def regRow : EventGroupRow :=
  { username := "alice", monitor_id := "M1",
    event_group_id := "__registration__M1", metadata := none,
    received_at := 0, processed := true }

/-- The row `save_event_group` stores for `("alice", "M1", "G1")`. -/
def egRow1 : EventGroupRow :=
  { username := "alice", monitor_id := "M1", event_group_id := "G1",
    metadata := none, received_at := 0, processed := false }

/-! ## C1 — a rate-limited probe mutates nothing -/

/-- C1: for every stored token whose expiry parses to a future instant and
whose effective daily count (after the conceptual reset when
`last_request_date ≠ today`) has reached `rate_limit`, `is_token_valid`
returns the rate-limited outcome carrying the row's username and leaves
the `tokens` table — `request_count`, `last_request_date` and
`lifetime_requests` included — exactly as it was. -/
theorem C1_rate_limited_no_write
    (db : List TokenRow) (tok : String) (now : Nat) (today : String)
    (row : TokenRow) (e : Nat)
    (htok : tok ≠ "")
    (hfind : db.find? (fun r => r.token = tok) = some row)
    (hexp : row.expiry = some e)
    (hfut : now < e)
    (hlim : row.rate_limit ≤ effectiveCount row today) :
    is_token_valid db tok now today = (.rateLimited row.username, db) := by
  simp [is_token_valid, htok, hfind, hexp, Nat.not_le.mpr hfut, hlim]

/-- Witness for C1: `alice` at 5 of 5 requests today, token unexpired. -/
theorem C1_rate_limited_no_write_witness :
    is_token_valid [aliceRow] "T1" 50 "2026-10-12"
      = (.rateLimited "alice", [aliceRow]) :=
  C1_rate_limited_no_write [aliceRow] "T1" 50 "2026-10-12" aliceRow 100
    (by decide) (by decide) (by decide) (by decide) (by decide)

/-! ## C9 — monitor creation runs the same quota gate as chat -/

/-- C9: the authentication prologue of `create_monitor_endpoint` equals
the one of `chat_endpoint`; for a stored unexpired token it answers the
429-equivalent without mutation when the effective daily count has
reached the limit, and otherwise proceeds after writing back the
incremented daily and lifetime counters. -/
theorem C9_monitor_create_quota
    (db : List TokenRow) (auth : Option String) (now : Nat) (today : String)
    (row : TokenRow) (e : Nat)
    (htok : extractBearer auth ≠ "")
    (hfind : db.find? (fun r => r.token = extractBearer auth) = some row)
    (hexp : row.expiry = some e)
    (hfut : now < e) :
    createMonitorAuth db auth now today = chatEndpointAuth db auth now today
    ∧ (row.rate_limit ≤ effectiveCount row today →
        createMonitorAuth db auth now today = (.http429, db))
    ∧ (effectiveCount row today < row.rate_limit →
        createMonitorAuth db auth now today =
          (.proceed row.username,
           updateTokenRow db (extractBearer auth)
             (effectiveCount row today + 1) today
             (row.lifetime_requests + 1))) := by
  refine ⟨rfl, ?_, ?_⟩
  · intro h
    simp [createMonitorAuth, is_token_valid, htok, hfind, hexp,
      Nat.not_le.mpr hfut, h]
  · intro h
    simp [createMonitorAuth, is_token_valid, htok, hfind, hexp,
      Nat.not_le.mpr hfut, Nat.not_le.mpr h]

/-- Witness for C9: `alice` (at her limit) is answered 429 with no write;
`bob` (under his limit) proceeds with both counters incremented. -/
theorem C9_monitor_create_quota_witness :
    createMonitorAuth [aliceRow] (some "Bearer T1") 50 "2026-10-12"
      = (.http429, [aliceRow])
    ∧ createMonitorAuth [bobRow] (some "Bearer T2") 50 "2026-10-12"
      = (.proceed "bob", updateTokenRow [bobRow] "T2" 3 "2026-10-12" 10) :=
  ⟨(C9_monitor_create_quota [aliceRow] (some "Bearer T1") 50 "2026-10-12"
      aliceRow 100 (by decide) (by decide) (by decide) (by decide)).2.1
      (by decide),
   (C9_monitor_create_quota [bobRow] (some "Bearer T2") 50 "2026-10-12"
      bobRow 100 (by decide) (by decide) (by decide) (by decide)).2.2
      (by decide)⟩

/-! ## C10 — event-group inserts require an existing username -/

/-- C10: `save_event_group` stores nothing and reports failure when the
username is empty or absent from the `tokens` table, and every row of the
table after a call is either an old row or carries the just-validated
username. -/
theorem C10_event_group_referential_integrity
    (db : MonitorDB) (u m g : String) (meta : Option String) (t : Nat) :
    (u = "" → save_event_group db u m g meta t = (false, db))
    ∧ (username_exists db.tokens u = false →
        save_event_group db u m g meta t = (false, db))
    ∧ (∀ r ∈ (save_event_group db u m g meta t).2.groups,
        r ∈ db.groups ∨ (r.username = u ∧ username_exists db.tokens u = true)) := by
  refine ⟨?_, ?_, ?_⟩
  · intro h
    simp [save_event_group, h]
  · intro h
    by_cases hu : u = "" <;> simp [save_event_group, hu, h]
  · intro r hr
    by_cases hu : u = ""
    · exact Or.inl (by simpa [save_event_group, hu] using hr)
    · by_cases hex : username_exists db.tokens u
      · by_cases hdup : db.groups.any (fun r => r.event_group_id = g)
        · exact Or.inl (by
            simpa [save_event_group, hu, hex, insertOrIgnoreGroup, hdup]
              using hr)
        · have hmem : r ∈ db.groups ++
              [({ username := u, monitor_id := m, event_group_id := g,
                  metadata := meta, received_at := t,
                  processed := false } : EventGroupRow)] := by
            simpa [save_event_group, hu, hex, insertOrIgnoreGroup, hdup]
              using hr
          rcases List.mem_append.mp hmem with h | h
          · exact Or.inl h
          · refine Or.inr ?_
            rcases List.mem_singleton.mp h with rfl
            exact ⟨rfl, hex⟩
      · exact Or.inl (by
          simp only [Bool.not_eq_true] at hex
          simpa [save_event_group, hu, hex] using hr)

/-- Witness for C10: the empty username and the unknown username `bob`
store nothing; the row actually stored for `alice` carries an existing
username. -/
theorem C10_event_group_referential_integrity_witness :
    save_event_group ⟨[aliceRow], []⟩ "" "M1" "G1" none 0
      = (false, ⟨[aliceRow], []⟩)
    ∧ save_event_group ⟨[aliceRow], []⟩ "bob2" "M1" "G1" none 0
      = (false, ⟨[aliceRow], []⟩)
    ∧ (egRow1 ∈ ([] : List EventGroupRow)
        ∨ (egRow1.username = "alice"
            ∧ username_exists [aliceRow] "alice" = true)) :=
  ⟨(C10_event_group_referential_integrity ⟨[aliceRow], []⟩ "" "M1" "G1"
      none 0).1 rfl,
   (C10_event_group_referential_integrity ⟨[aliceRow], []⟩ "bob2" "M1" "G1"
      none 0).2.1 (by decide),
   (C10_event_group_referential_integrity ⟨[aliceRow], []⟩ "alice" "M1" "G1"
      none 0).2.2 egRow1 (by decide)⟩

/-! ## C6 — duplicate webhook deliveries are deduplicated, not errors -/

/-- The row `save_event_group` inserts for a webhook delivery. -/
def storedRow (u m g : String) (meta : Option String) (t : Nat) :
    EventGroupRow :=
  { username := u, monitor_id := m, event_group_id := g, metadata := meta,
    received_at := t, processed := false }

/-- C6: delivering the same `(monitor_id, event_group_id)` webhook twice
for a registered monitor (whose resolved username exists) stores exactly
one event-group row; the second delivery changes nothing and is still
acknowledged with HTTP status 200 (dedup by the `event_group_id`
uniqueness constraint, not by an error). -/
theorem C6_webhook_idempotent
    (db : MonitorDB) (m g : String) (meta : Option String) (t1 t2 : Nat)
    (u : String)
    (hm : m ≠ "") (hg : g ≠ "") (hu : u ≠ "")
    (hlookup : get_username_by_monitor_id db.groups m = some u)
    (huser : username_exists db.tokens u = true)
    (hfresh : ∀ r ∈ db.groups, r.event_group_id ≠ g) :
    parallel_monitor_webhook db ⟨some m, some g, meta⟩ t1
      = (.stored g,
         { db with groups := db.groups ++ [storedRow u m g meta t1] })
    ∧ parallel_monitor_webhook
        { db with groups := db.groups ++ [storedRow u m g meta t1] }
        ⟨some m, some g, meta⟩ t2
      = (.receivedDuplicate g,
         { db with groups := db.groups ++ [storedRow u m g meta t1] })
    ∧ (WebhookResp.receivedDuplicate g).status = 200
    ∧ ((db.groups ++ [storedRow u m g meta t1]).filter
        (fun r => r.event_group_id = g)).length = 1 := by
  have hany : db.groups.any (fun r => r.event_group_id = g) = false := by
    simp only [List.any_eq_false, decide_eq_true_eq]
    exact hfresh
  refine ⟨?_, ?_, rfl, ?_⟩
  · simp [parallel_monitor_webhook, optTruthy, hg, hm, hlookup,
      save_event_group, hu, huser, insertOrIgnoreGroup, hany, storedRow]
  · obtain ⟨r0, hr0, hru⟩ :
        ∃ r0, db.groups.find? (fun r => r.monitor_id = m) = some r0
          ∧ r0.username = u := by
      simpa [get_username_by_monitor_id, Option.map_eq_some'] using hlookup
    have hlookup2 :
        get_username_by_monitor_id
          (db.groups ++ [storedRow u m g meta t1]) m = some u := by
      simp [get_username_by_monitor_id, List.find?_append, hr0, hru]
    simp only [storedRow] at hlookup2
    simp [parallel_monitor_webhook, optTruthy, hg, hm, hlookup2,
      save_event_group, hu, huser, insertOrIgnoreGroup, List.any_append,
      storedRow]
  · have hnil : db.groups.filter (fun r => r.event_group_id = g) = [] := by
      simp only [List.filter_eq_nil_iff, decide_eq_true_eq]
      exact hfresh
    simp [List.filter_append, hnil, storedRow]

/-- Witness for C6: monitor `M1` registered to `alice`; the webhook for
group `G1` is stored once and the replay is acknowledged unchanged. -/
theorem C6_webhook_idempotent_witness :
    parallel_monitor_webhook ⟨[aliceRow], [regRow]⟩
        ⟨some "M1", some "G1", none⟩ 3
      = (.stored "G1",
         ⟨[aliceRow], [regRow, storedRow "alice" "M1" "G1" none 3]⟩)
    ∧ parallel_monitor_webhook
        ⟨[aliceRow], [regRow, storedRow "alice" "M1" "G1" none 3]⟩
        ⟨some "M1", some "G1", none⟩ 4
      = (.receivedDuplicate "G1",
         ⟨[aliceRow], [regRow, storedRow "alice" "M1" "G1" none 3]⟩)
    ∧ (WebhookResp.receivedDuplicate "G1").status = 200
    ∧ (([regRow, storedRow "alice" "M1" "G1" none 3] :
          List EventGroupRow).filter
        (fun r => r.event_group_id = "G1")).length = 1 :=
  C6_webhook_idempotent ⟨[aliceRow], [regRow]⟩ "M1" "G1" none 3 4 "alice"
    (by decide) (by decide) (by decide) (by decide) (by decide) (by decide)

/-! ## C5 — streaming line filtering of the OpenAI-compatible adapter -/

/-- The parsed well-formed chunk used in the C5 scenario: one choice
carrying a truthy delta. -/
def goodChunkJson : Json :=
  .obj [("choices", .arr [.obj [("delta", .obj [("content", .str "hi")])]])]

/-- The parse oracle of the C5 witness. -/
def parseC5 : String → Option Json :=
  fun s => if s = "GOOD" then some goodChunkJson else none

/-- C5: a line reading exactly `data: [DONE]` passes through as the
terminal frame; a `data: `-prefixed line whose payload does not parse is
dropped silently; a line without the prefix produces nothing; and the
scenario well-formed line / garbage line / `data: [DONE]` emits exactly
the normalized first chunk and the terminal marker. -/
theorem C5_streaming_line_filter
    (parse : String → Option Json) (name : String) (now : Nat)
    (hname : name ≠ "Perplexity Sonar") :
    process_streaming_chunk parse name now "data: [DONE]" = some .done
    ∧ (∀ chunk, pyStartsWith chunk "data: " = true →
        pyStrip (pyDrop chunk 6) ≠ "[DONE]" →
        parse (pyStrip (pyDrop chunk 6)) = none →
        process_streaming_chunk parse name now chunk = none)
    ∧ (∀ chunk, pyStartsWith chunk "data: " = false →
        process_streaming_chunk parse name now chunk = none)
    ∧ (∀ good garb : String,
        pyStartsWith good "data: " = true →
        pyStrip (pyDrop good 6) ≠ "[DONE]" →
        parse (pyStrip (pyDrop good 6)) = some goodChunkJson →
        pyStartsWith garb "data: " = true →
        pyStrip (pyDrop garb 6) ≠ "[DONE]" →
        parse (pyStrip (pyDrop garb 6)) = none →
        [good, garb, "data: [DONE]"].filterMap
            (process_streaming_chunk parse name now)
          = [.data (.obj [("choices",
                .arr [.obj [("delta", .obj [("content", .str "hi")])]]),
              ("created", .num now), ("model", .str "unknown")]),
             .done]) := by
  refine ⟨rfl, ?_, ?_, ?_⟩
  · intro chunk h1 h2 h3
    simp [process_streaming_chunk, h1, h2, h3]
  · intro chunk h1
    simp [process_streaming_chunk, h1]
  · intro good garb hg1 hg2 hg3 hb1 hb2 hb3
    simp [process_streaming_chunk, hg1, hg2, hg3, hb1, hb2, hb3,
      normalize_response, hname, goodChunkJson, Json.assign, objAssign,
      Json.getD, Json.get]
    exact ⟨rfl, rfl⟩

/-- Witness for C5: the oracle accepts only payload `GOOD`; the stream
`data: GOOD`, `data: GARBAGE`, `data: [DONE]` yields two frames. -/
theorem C5_streaming_line_filter_witness :
    process_streaming_chunk parseC5 "XAI" 7 "data: [DONE]" = some .done
    ∧ ["data: GOOD", "data: GARBAGE", "data: [DONE]"].filterMap
        (process_streaming_chunk parseC5 "XAI" 7)
      = [.data (.obj [("choices",
            .arr [.obj [("delta", .obj [("content", .str "hi")])]]),
          ("created", .num 7), ("model", .str "unknown")]),
         .done] :=
  ⟨(C5_streaming_line_filter parseC5 "XAI" 7 (by decide)).1,
   (C5_streaming_line_filter parseC5 "XAI" 7 (by decide)).2.2.2
     "data: GOOD" "data: GARBAGE" (by decide) (by decide) rfl
     (by decide) (by decide) rfl⟩

/-! ## C3 — what each adapter emits after a mid-stream transport failure -/

/-- Counterexample to C3 as stated: on the OpenAI-compatible adapter
(`LLMProvider._stream_completion`) a transport failure yields only the
bare `{"error": …}` object — the emitted sequence does not end with the
terminal frame, for no decomposition whatsoever. -/
theorem C3_counterexample :
    llm_stream (fun _ => none) "XAI" 0 [] (some "boom")
      = [.raw (.obj [("error", .str "boom")])]
    ∧ (llm_stream (fun _ => none) "XAI" 0 [] (some "boom")).getLast?
      ≠ some Frame.done := by
  refine ⟨rfl, ?_⟩
  intro h
  rw [show (llm_stream (fun _ => none) "XAI" 0 [] (some "boom")).getLast?
      = some (Frame.raw (.obj [("error", .str "boom")])) from rfl] at h
  exact Frame.noConfusion (Option.some.inj h)

/-- C3 amended: after a mid-stream `httpx.HTTPError`, the Anthropic
adapter still emits one final content-bearing error chunk followed by the
terminal frame, whatever was already streamed; the OpenAI-compatible
adapter instead ends with a single bare JSON error object and never emits
the terminal frame. -/
theorem C3_midstream_error_frames
    (parse : String → Option Json) (message_id name : String) (now : Nat)
    (model : Json) (lines : List String) (e : String) :
    (∃ pre, anthropic_stream parse message_id now model lines (some e)
        = pre ++ [.data (openaiChunk ("chatcmpl-" ++ toString now) now model
            (.obj [("content", .str ("Error: " ++ e))]) (.str "stop")),
          Frame.done])
    ∧ (anthropic_stream parse message_id now model lines (some e)).getLast?
        = some Frame.done
    ∧ (llm_stream parse name now lines (some e)).getLast?
        = some (.raw (.obj [("error", .str e)])) := by
  refine ⟨⟨lines.filterMap (anthropic_process_line parse message_id now model),
    rfl⟩, ?_, ?_⟩
  · show (lines.filterMap (anthropic_process_line parse message_id now model)
        ++ [.data (openaiChunk ("chatcmpl-" ++ toString now) now model
              (.obj [("content", .str ("Error: " ++ e))]) (.str "stop")),
            Frame.done]).getLast? = some Frame.done
    rw [show (lines.filterMap
          (anthropic_process_line parse message_id now model)
        ++ [.data (openaiChunk ("chatcmpl-" ++ toString now) now model
              (.obj [("content", .str ("Error: " ++ e))]) (.str "stop")),
            Frame.done])
      = (lines.filterMap (anthropic_process_line parse message_id now model)
        ++ [.data (openaiChunk ("chatcmpl-" ++ toString now) now model
              (.obj [("content", .str ("Error: " ++ e))]) (.str "stop"))])
        ++ [Frame.done] by simp]
    exact List.getLast?_concat _
  · exact List.getLast?_concat _

/-! ## Helper characterizations of the Anthropic request translation -/

/-- The non-system messages, in order, each projected to a fresh
role/content dict — the claim-level description of `filtered_messages`. -/
def nonSystemProj (ms : List Json) : List Json :=
  (ms.filter (fun m => !roleIsSystem m)).map
    (fun m => Json.obj [("role", Json.ofOption (m.get "role")),
                        ("content", Json.ofOption (m.get "content"))])

/-- The content of the last system-role message, if any — the value the
`system_content` variable holds after the loop. -/
def lastSystemContent : List Json → Option Json
  | [] => none
  | m :: rest =>
    match lastSystemContent rest with
    | some c => some c
    | none =>
      if roleIsSystem m then some (m.getD "content" (.str "")) else none

theorem systemAndFiltered_go (ms : List Json) (a : Option Json)
    (l : List Json) :
    ms.foldl
      (fun acc msg =>
        if roleIsSystem msg then
          (some (msg.getD "content" (.str "")), acc.2)
        else
          (acc.1,
           acc.2 ++ [Json.obj [("role", Json.ofOption (msg.get "role")),
                               ("content", Json.ofOption (msg.get "content"))]]))
      (a, l)
    = ((lastSystemContent ms).elim a some, l ++ nonSystemProj ms) := by
  induction ms generalizing a l with
  | nil => simp [lastSystemContent, nonSystemProj]
  | cons m rest ih =>
    by_cases hm : roleIsSystem m
    · rw [List.foldl_cons]
      simp only [hm, if_true]
      rw [ih]
      cases hsc : lastSystemContent rest <;>
        simp [lastSystemContent, hsc, hm, nonSystemProj]
    · rw [List.foldl_cons]
      simp only [hm, if_false, Bool.false_eq_true]
      rw [ih]
      cases hsc : lastSystemContent rest <;>
        simp [lastSystemContent, hsc, hm, nonSystemProj, List.filter_cons,
          List.append_assoc]

theorem systemAndFiltered_eq (ms : List Json) :
    systemAndFiltered ms = (lastSystemContent ms, nonSystemProj ms) := by
  rw [systemAndFiltered, systemAndFiltered_go]
  cases lastSystemContent ms <;> simp

/-- The `system` entry of the built payload: present exactly when the
last system message's content is truthy. -/
def sysField (ms : List Json) : List (String × Json) :=
  match lastSystemContent ms with
  | some sc => if sc.truthy then [("system", sc)] else []
  | none => []

/-- One optional pass-through entry: present iff the key is present in
the inbound payload. -/
def optField (p : Json) (k : String) : List (String × Json) :=
  match p.get k with
  | some v => [(k, v)]
  | none => []

/-- The Anthropic payload before the extra-options merge, described
field by field. -/
def convertBaseFields (p : Json) : List (String × Json) :=
  [("model", Json.ofOption (p.get "model")),
   ("messages", .arr (nonSystemProj (p.getD "messages" (.arr [])).asArr)),
   ("max_tokens", p.getD "max_tokens" (.num 4096))]
  ++ sysField (p.getD "messages" (.arr [])).asArr
  ++ optField p "temperature" ++ optField p "top_p" ++ optField p "stream"

theorem convert_eq_base (extra : List (String × Json)) (p : Json) :
    convert_openai_to_anthropic extra p
      = .obj (dictUpdate (convertBaseFields p) extra) := by
  simp only [convert_openai_to_anthropic, systemAndFiltered_eq,
    convertBaseFields]
  cases hsys : lastSystemContent (p.getD "messages" (.arr [])).asArr with
  | none =>
    cases htemp : p.get "temperature" <;> cases htop : p.get "top_p" <;>
      cases hstr : p.get "stream" <;>
      simp [sysField, optField, hsys, htemp, htop, hstr, objAssign]
  | some sc =>
    by_cases hb : sc.truthy <;>
      cases htemp : p.get "temperature" <;> cases htop : p.get "top_p" <;>
      cases hstr : p.get "stream" <;>
      simp [sysField, optField, hsys, htemp, htop, hstr, hb, objAssign]

theorem lookup_map_replace_self (t : List (String × Json)) (k : String)
    (v : Json) (hc : t.any (fun kv => kv.1 = k) = true) :
    (t.map (fun kv => if kv.1 = k then (k, v) else kv)).lookup k
      = some v := by
  induction t with
  | nil => cases hc
  | cons hd tl ih =>
    by_cases ha : hd.1 = k
    · have h1 : ((hd :: tl).map (fun kv => if kv.1 = k then (k, v) else kv))
          = (k, v) :: tl.map (fun kv => if kv.1 = k then (k, v) else kv) := by
        simp [ha]
      rw [h1]
      simp [List.lookup]
    · have h1 : ((hd :: tl).map (fun kv => if kv.1 = k then (k, v) else kv))
          = hd :: tl.map (fun kv => if kv.1 = k then (k, v) else kv) := by
        simp [ha]
      have hk : (k == hd.1) = false := by
        rw [beq_eq_false_iff_ne]
        exact fun h => ha h.symm
      have hc' : tl.any (fun kv => kv.1 = k) = true := by
        simpa [List.any_cons, ha] using hc
      rw [h1]
      simp only [List.lookup, hk]
      exact ih hc'

theorem lookup_map_replace (t : List (String × Json)) (k k' : String)
    (v : Json) (h : k' ≠ k) :
    (t.map (fun kv => if kv.1 = k' then (k', v) else kv)).lookup k
      = t.lookup k := by
  induction t with
  | nil => rfl
  | cons hd tl ih =>
    by_cases ha : hd.1 = k'
    · have h1 : ((hd :: tl).map (fun kv => if kv.1 = k' then (k', v) else kv))
          = (k', v) :: tl.map (fun kv => if kv.1 = k' then (k', v) else kv) := by
        simp [ha]
      have hk : (k == k') = false := by
        rw [beq_eq_false_iff_ne]
        exact fun hx => h hx.symm
      have hk2 : (k == hd.1) = false := by rw [ha]; exact hk
      rw [h1]
      simp only [List.lookup, hk, hk2]
      exact ih
    · have h1 : ((hd :: tl).map (fun kv => if kv.1 = k' then (k', v) else kv))
          = hd :: tl.map (fun kv => if kv.1 = k' then (k', v) else kv) := by
        simp [ha]
      rw [h1]
      cases hk : (k == hd.1) with
      | true => simp [List.lookup, hk]
      | false =>
        simp only [List.lookup, hk]
        exact ih

theorem lookup_append_single_self (t : List (String × Json)) (k : String)
    (v : Json) (hc : t.any (fun kv => kv.1 = k) = false) :
    (t ++ [(k, v)]).lookup k = some v := by
  induction t with
  | nil => simp [List.lookup]
  | cons hd tl ih =>
    have ha : ¬ hd.1 = k := by
      intro hx
      simp [List.any_cons, hx] at hc
    have hk : (k == hd.1) = false := by
      rw [beq_eq_false_iff_ne]
      exact fun h => ha h.symm
    have hc' : tl.any (fun kv => kv.1 = k) = false := by
      simpa [List.any_cons, ha] using hc
    rw [List.cons_append]
    simp only [List.lookup, hk]
    exact ih hc'

theorem lookup_append_single_ne (t : List (String × Json)) (k k' : String)
    (v : Json) (h : k' ≠ k) :
    (t ++ [(k', v)]).lookup k = t.lookup k := by
  induction t with
  | nil =>
    have hk : (k == k') = false := by
      rw [beq_eq_false_iff_ne]
      exact fun hx => h hx.symm
    simp [List.lookup, hk]
  | cons hd tl ih =>
    rw [List.cons_append]
    cases hk : (k == hd.1) with
    | true => simp [List.lookup, hk]
    | false =>
      simp only [List.lookup, hk]
      exact ih

theorem lookup_objAssign_self (fields : List (String × Json)) (k : String)
    (v : Json) :
    (objAssign fields k v).lookup k = some v := by
  cases hc : fields.any (fun kv => kv.1 = k) with
  | true =>
    rw [show objAssign fields k v
        = fields.map (fun kv => if kv.1 = k then (k, v) else kv) from by
      simp [objAssign, hc]]
    exact lookup_map_replace_self _ _ _ hc
  | false =>
    rw [show objAssign fields k v = fields ++ [(k, v)] from by
      simp [objAssign, hc]]
    exact lookup_append_single_self _ _ _ hc

theorem lookup_objAssign_ne (fields : List (String × Json)) (k k' : String)
    (v : Json) (h : k' ≠ k) :
    (objAssign fields k' v).lookup k = fields.lookup k := by
  cases hc : fields.any (fun kv => kv.1 = k') with
  | true =>
    rw [show objAssign fields k' v
        = fields.map (fun kv => if kv.1 = k' then (k', v) else kv) from by
      simp [objAssign, hc]]
    exact lookup_map_replace _ _ _ _ h
  | false =>
    rw [show objAssign fields k' v = fields ++ [(k', v)] from by
      simp [objAssign, hc]]
    exact lookup_append_single_ne _ _ _ _ h

theorem lookup_dictUpdate_not_mem (extra : List (String × Json))
    (k : String) :
    (∀ kv ∈ extra, kv.1 ≠ k) →
    ∀ base, (dictUpdate base extra).lookup k = base.lookup k := by
  induction extra with
  | nil => intro _ base; rfl
  | cons hd t ih =>
    intro h base
    rw [show dictUpdate base (hd :: t)
        = dictUpdate (objAssign base hd.1 hd.2) t from rfl]
    rw [ih (fun kv hkv => h kv (List.mem_cons_of_mem _ hkv)) _]
    exact lookup_objAssign_ne _ _ _ _ (h hd (List.mem_cons_self _ _))

theorem lookup_dictUpdate_mem (extra : List (String × Json)) (k : String)
    (v : Json) :
    (extra.map Prod.fst).Nodup → (k, v) ∈ extra →
    ∀ base, (dictUpdate base extra).lookup k = some v := by
  induction extra with
  | nil => intro _ hmem; cases hmem
  | cons hd t ih =>
    intro hnodup hmem base
    rw [List.map_cons, List.nodup_cons] at hnodup
    rcases List.mem_cons.mp hmem with heq | hmem'
    · have h1 : hd.1 = k := by rw [← heq]
      have h2 : hd.2 = v := by rw [← heq]
      have hnot : ∀ kv ∈ t, kv.1 ≠ k := by
        intro kv hkv hk
        exact hnodup.1 (h1 ▸ hk ▸ List.mem_map_of_mem Prod.fst hkv)
      rw [show dictUpdate base (hd :: t)
          = dictUpdate (objAssign base hd.1 hd.2) t from rfl]
      rw [lookup_dictUpdate_not_mem t k hnot _, h1, h2]
      exact lookup_objAssign_self _ _ _
    · rw [show dictUpdate base (hd :: t)
          = dictUpdate (objAssign base hd.1 hd.2) t from rfl]
      exact ih hnodup.2 hmem' _

/-- The optional keys of the built payload looked up on the
characterized field list: `temperature`, `top_p` and `stream` pass
through exactly when present, and `system` holds the last system
message's content exactly when that content is truthy. -/
theorem lookup_convertBase_opts (p : Json) :
    (convertBaseFields p).lookup "temperature" = p.get "temperature"
    ∧ (convertBaseFields p).lookup "top_p" = p.get "top_p"
    ∧ (convertBaseFields p).lookup "stream" = p.get "stream"
    ∧ (convertBaseFields p).lookup "system"
      = (match lastSystemContent (p.getD "messages" (.arr [])).asArr with
         | some sc => if sc.truthy then some sc else none
         | none => none) := by
  unfold convertBaseFields sysField optField
  cases hsys : lastSystemContent (p.getD "messages" (.arr [])).asArr with
  | none =>
    cases htemp : p.get "temperature" <;> cases htop : p.get "top_p" <;>
      cases hstr : p.get "stream" <;> exact ⟨rfl, rfl, rfl, rfl⟩
  | some sc =>
    cases hb : sc.truthy with
    | true =>
      dsimp only
      rw [if_pos hb, if_pos hb]
      cases htemp : p.get "temperature" <;> cases htop : p.get "top_p" <;>
        cases hstr : p.get "stream" <;> exact ⟨rfl, rfl, rfl, rfl⟩
    | false =>
      dsimp only
      rw [if_neg (by simp [hb]), if_neg (by simp [hb])]
      cases htemp : p.get "temperature" <;> cases htop : p.get "top_p" <;>
        cases hstr : p.get "stream" <;> exact ⟨rfl, rfl, rfl, rfl⟩

/-! ## C4 — shape of the translated Anthropic request -/

/-- The C4/C8 sample request: system message `A`, user message, then a
second system message `B`. -/
def c4payload : Json :=
  .obj [("model", .str "m"),
        ("messages", .arr
          [.obj [("role", .str "system"), ("content", .str "A")],
           .obj [("role", .str "user"), ("content", .str "hello")],
           .obj [("role", .str "system"), ("content", .str "B")]])]

/-- Counterexample to C4 as stated: with two system messages, the
translation lifts the content of the *last* system message (`B`), not
the first (`A`), and the second system message is not kept in the
translated message list either — only the user message survives. -/
theorem C4_counterexample :
    (convert_openai_to_anthropic [] c4payload).get "system"
      = some (.str "B")
    ∧ (convert_openai_to_anthropic [] c4payload).get "system"
      ≠ some (.str "A")
    ∧ (convert_openai_to_anthropic [] c4payload).get "messages"
      = some (.arr [.obj [("role", .str "user"),
                          ("content", .str "hello")]]) := by
  refine ⟨rfl, ?_, rfl⟩
  intro h
  rw [show (convert_openai_to_anthropic [] c4payload).get "system"
      = some (Json.str "B") from rfl] at h
  exact absurd (Json.str.inj (Option.some.inj h)) (by decide)

/-- C4 amended: the translated payload is exactly `convertBaseFields`
merged with the provider extras: every system-role message is removed
from the message list and the *last* one's content becomes the top-level
`system` field when truthy (no field otherwise); non-system messages
keep role and content in order; `max_tokens` is always present,
defaulting to 4096; `temperature`, `top_p` and `stream` pass through
exactly when present; and extra fields are merged last, so any extra
binding wins. -/
theorem C4_request_translation (p : Json) (extra : List (String × Json))
    (hnodup : (extra.map Prod.fst).Nodup) :
    convert_openai_to_anthropic [] p = .obj (convertBaseFields p)
    ∧ (convert_openai_to_anthropic [] p).get "messages"
      = some (.arr (nonSystemProj (p.getD "messages" (.arr [])).asArr))
    ∧ (convert_openai_to_anthropic [] p).get "max_tokens"
      = some (p.getD "max_tokens" (.num 4096))
    ∧ (convert_openai_to_anthropic [] p).get "temperature"
      = p.get "temperature"
    ∧ (convert_openai_to_anthropic [] p).get "top_p" = p.get "top_p"
    ∧ (convert_openai_to_anthropic [] p).get "stream" = p.get "stream"
    ∧ (convert_openai_to_anthropic [] p).get "system"
      = (match lastSystemContent (p.getD "messages" (.arr [])).asArr with
         | some sc => if sc.truthy then some sc else none
         | none => none)
    ∧ (∀ k v, (k, v) ∈ extra →
        (convert_openai_to_anthropic extra p).get k = some v) := by
  have hbase : convert_openai_to_anthropic [] p
      = .obj (convertBaseFields p) := by
    rw [convert_eq_base]
    rfl
  refine ⟨hbase, ?_, ?_, ?_, ?_, ?_, ?_, ?_⟩
  · rw [hbase]
    rfl
  · rw [hbase]
    rfl
  · rw [hbase]
    exact (lookup_convertBase_opts p).1
  · rw [hbase]
    exact (lookup_convertBase_opts p).2.1
  · rw [hbase]
    exact (lookup_convertBase_opts p).2.2.1
  · rw [hbase]
    exact (lookup_convertBase_opts p).2.2.2
  · intro k v hmem
    rw [convert_eq_base]
    exact lookup_dictUpdate_mem extra k v hnodup hmem _

/-- Witness for C4: on the sample request `max_tokens` defaults to 4096,
and an extra binding `max_tokens = 1024` overrides it. -/
theorem C4_request_translation_witness :
    (convert_openai_to_anthropic [] c4payload).get "max_tokens"
      = some (.num 4096)
    ∧ (convert_openai_to_anthropic [("max_tokens", Json.num 1024)]
        c4payload).get "max_tokens" = some (.num 1024) :=
  ⟨(C4_request_translation c4payload [] (by simp)).2.2.1,
   (C4_request_translation c4payload [("max_tokens", Json.num 1024)]
      (by simp)).2.2.2.2.2.2.2 "max_tokens" (.num 1024) (by simp)⟩

/-! ## C8 — round trip through the Anthropic adapter -/

/-- The claim-level concatenation of the text-typed content blocks. -/
def concatTextBlocks (blocks : List Json) : String :=
  blocks.foldl
    (fun acc b =>
      if blockIsText b then acc ++ (b.getD "text" (.str "")).asStr
      else acc)
    ""

theorem anthropicContentText_arr (resp : Json) (blocks : List Json)
    (h : resp.get "content" = some (.arr blocks)) :
    anthropicContentText resp = concatTextBlocks blocks := by
  simp only [anthropicContentText, concatTextBlocks, h]
  cases blocks with
  | nil => rfl
  | cons b t => rfl

/-- The sample upstream response content blocks for the C8 witness. -/
def c8blocks : List Json :=
  [.obj [("type", .str "text"), ("text", .str "Hel")],
   .obj [("type", .str "text"), ("text", .str "lo")]]

/-- The sample upstream response for the C8 witness. -/
def c8resp : Json :=
  .obj [("content", .arr c8blocks), ("stop_reason", .str "max_tokens")]

/-- C8: the request translation keeps the non-system messages in order
(projected to role/content); the response translation produces a single
choice whose message content is the in-order concatenation of the
text-typed content blocks and whose finish reason is the stop-reason
mapping `end_turn→stop`, `max_tokens→length`, `stop_sequence→stop` and
`stop` for anything else. -/
theorem C8_round_trip (p resp model : Json) (now : Nat)
    (blocks : List Json)
    (hsys : ((p.getD "messages" (.arr [])).asArr).any roleIsSystem = true)
    (hcontent : resp.get "content" = some (.arr blocks)) :
    (convert_openai_to_anthropic [] p).get "messages"
      = some (.arr (nonSystemProj (p.getD "messages" (.arr [])).asArr))
    ∧ (convert_anthropic_to_openai now resp model).get "choices"
      = some (.arr [Json.obj
          [("index", .num 0),
           ("message", .obj [("role", .str "assistant"),
             ("content", .str (concatTextBlocks blocks))]),
           ("finish_reason",
            .str (map_stop_reason (resp.get "stop_reason")))]])
    ∧ map_stop_reason (some (.str "end_turn")) = "stop"
    ∧ map_stop_reason (some (.str "max_tokens")) = "length"
    ∧ map_stop_reason (some (.str "stop_sequence")) = "stop"
    ∧ (∀ s : String, s ≠ "end_turn" → s ≠ "max_tokens" →
        s ≠ "stop_sequence" → map_stop_reason (some (.str s)) = "stop")
    ∧ map_stop_reason none = "stop" := by
  refine ⟨?_, ?_, rfl, rfl, rfl, ?_, rfl⟩
  · rw [convert_eq_base]
    rfl
  · rw [show (convert_anthropic_to_openai now resp model).get "choices"
        = some (.arr [Json.obj
            [("index", .num 0),
             ("message", .obj [("role", .str "assistant"),
               ("content", .str (anthropicContentText resp))]),
             ("finish_reason",
              .str (map_stop_reason (resp.get "stop_reason")))]])
      from rfl, anthropicContentText_arr resp blocks hcontent]
  · intro s h1 h2 h3
    rw [map_stop_reason.eq_def]
    split <;> simp_all

/-- Witness for C8: the sample request keeps exactly the user message;
the two text blocks `Hel` + `lo` come back as `Hello` with
`max_tokens ↦ length`; an unknown stop reason maps to `stop`. -/
theorem C8_round_trip_witness :
    (convert_openai_to_anthropic [] c4payload).get "messages"
      = some (.arr [.obj [("role", .str "user"),
                          ("content", .str "hello")]])
    ∧ (convert_anthropic_to_openai 9 c8resp (.str "m")).get "choices"
      = some (.arr [Json.obj
          [("index", .num 0),
           ("message", .obj [("role", .str "assistant"),
             ("content", .str "Hello")]),
           ("finish_reason", .str "length")]])
    ∧ map_stop_reason (some (.str "other")) = "stop" :=
  ⟨(C8_round_trip c4payload c8resp (.str "m") 9 c8blocks (by decide)
      rfl).1,
   (C8_round_trip c4payload c8resp (.str "m") 9 c8blocks (by decide)
      rfl).2.1,
   (C8_round_trip c4payload c8resp (.str "m") 9 c8blocks (by decide)
      rfl).2.2.2.2.2.1 "other" (by decide) (by decide) (by decide)⟩

/-! ## C7 — the monitor pull loop -/

/-- Whether the upstream fetch for a group succeeds. -/
def okFetch (fetch : String → String → FetchResult)
    (g : EventGroupRow) : Bool :=
  match fetch g.monitor_id g.event_group_id with
  | .ok _ => true
  | _ => false

/-- Whether some fetched group with the given id had a successful fetch
(the condition under which `mark_event_group_processed` has touched a
row with that id). -/
def shouldMark (fetch : String → String → FetchResult)
    (gs : List EventGroupRow) (id : String) : Bool :=
  gs.any (fun g => decide (g.event_group_id = id) && okFetch fetch g)

/-- The row after the pull loop: marked processed exactly when some
fetched group with its id was fetched successfully. -/
def markIf (fetch : String → String → FetchResult)
    (gs : List EventGroupRow) (r : EventGroupRow) : EventGroupRow :=
  if shouldMark fetch gs r.event_group_id then { r with processed := true }
  else r

/-- What one group contributes to the emitted stream: its event frames
on success, one inline error chunk on `httpx.HTTPError`, nothing on the
uncaught decode error. -/
def perGroupFrames (fetch : String → String → FetchResult) (now : Nat)
    (g : EventGroupRow) : List Frame :=
  match fetch g.monitor_id g.event_group_id with
  | .ok events => groupEventFrames g.event_group_id now events
  | .httpError msg => [.data (fetchErrorChunk now g.event_group_id msg)]
  | .badJson => []

theorem markIf_cons_ok (fetch : String → String → FetchResult)
    (g : EventGroupRow) (rest : List EventGroupRow) (r : EventGroupRow)
    (hfetch : okFetch fetch g = true) :
    markIf fetch rest
      (if r.event_group_id = g.event_group_id then
        { r with processed := true } else r)
      = markIf fetch (g :: rest) r := by
  by_cases heq : r.event_group_id = g.event_group_id
  · rw [if_pos heq]
    have h1 : shouldMark fetch (g :: rest) r.event_group_id = true := by
      simp [shouldMark, List.any_cons, heq, hfetch]
    unfold markIf
    rw [h1, if_pos rfl]
    by_cases hm : shouldMark fetch rest
        ({ r with processed := true } : EventGroupRow).event_group_id
    · rw [if_pos hm]
    · rw [if_neg hm]
  · rw [if_neg heq]
    have hne : ¬ g.event_group_id = r.event_group_id := fun h => heq h.symm
    have h1 : shouldMark fetch (g :: rest) r.event_group_id
        = shouldMark fetch rest r.event_group_id := by
      simp [shouldMark, List.any_cons, hne]
    unfold markIf
    rw [h1]

theorem markIf_cons_fail (fetch : String → String → FetchResult)
    (g : EventGroupRow) (rest : List EventGroupRow) (r : EventGroupRow)
    (hfetch : okFetch fetch g = false) :
    markIf fetch rest r = markIf fetch (g :: rest) r := by
  have h1 : shouldMark fetch (g :: rest) r.event_group_id
      = shouldMark fetch rest r.event_group_id := by
    simp [shouldMark, List.any_cons, hfetch]
  unfold markIf
  rw [h1]

theorem process_groups_frames (fetch : String → String → FetchResult)
    (now : Nat) (gs : List EventGroupRow)
    (hok : ∀ g ∈ gs, fetch g.monitor_id g.event_group_id ≠ .badJson) :
    ∀ db, (process_groups fetch now gs db).1
      = gs.flatMap (perGroupFrames fetch now) := by
  induction gs with
  | nil => intro db; rfl
  | cons g rest ih =>
    intro db
    have hrest := fun x hx => hok x (List.mem_cons_of_mem g hx)
    cases hfetch : fetch g.monitor_id g.event_group_id with
    | ok events =>
      simp only [process_groups, hfetch]
      rw [ih hrest _]
      simp [perGroupFrames, hfetch]
    | httpError msg =>
      simp only [process_groups, hfetch]
      rw [ih hrest _]
      simp [perGroupFrames, hfetch]
    | badJson => exact absurd hfetch (hok g (List.mem_cons_self g rest))

theorem process_groups_done (fetch : String → String → FetchResult)
    (now : Nat) (gs : List EventGroupRow)
    (hok : ∀ g ∈ gs, fetch g.monitor_id g.event_group_id ≠ .badJson) :
    ∀ db, (process_groups fetch now gs db).2.2 = true := by
  induction gs with
  | nil => intro db; rfl
  | cons g rest ih =>
    intro db
    have hrest := fun x hx => hok x (List.mem_cons_of_mem g hx)
    cases hfetch : fetch g.monitor_id g.event_group_id with
    | ok events =>
      simp only [process_groups, hfetch]
      exact ih hrest _
    | httpError msg =>
      simp only [process_groups, hfetch]
      exact ih hrest _
    | badJson => exact absurd hfetch (hok g (List.mem_cons_self g rest))

theorem process_groups_db (fetch : String → String → FetchResult)
    (now : Nat) (gs : List EventGroupRow)
    (hok : ∀ g ∈ gs, fetch g.monitor_id g.event_group_id ≠ .badJson) :
    ∀ db, (process_groups fetch now gs db).2.1
      = { tokens := db.tokens,
          groups := db.groups.map (markIf fetch gs) } := by
  induction gs with
  | nil =>
    intro db
    have h1 : db.groups.map (markIf fetch []) = db.groups := by
      have h2 : markIf fetch [] = fun r => r := by
        funext r
        rfl
      rw [h2, List.map_id'']
      intro x
      rfl
    show db = _
    rw [h1]
  | cons g rest ih =>
    intro db
    have hrest := fun x hx => hok x (List.mem_cons_of_mem g hx)
    cases hfetch : fetch g.monitor_id g.event_group_id with
    | ok events =>
      have hko : okFetch fetch g = true := by
        simp [okFetch, hfetch]
      simp only [process_groups, hfetch]
      rw [ih hrest _]
      show ({ tokens := db.tokens,
              groups := (mark_event_group_processed db
                g.event_group_id).groups.map (markIf fetch rest) }
            : MonitorDB) = _
      rw [show (mark_event_group_processed db g.event_group_id).groups
          = db.groups.map (fun r =>
              if r.event_group_id = g.event_group_id then
                { r with processed := true } else r) from rfl]
      rw [List.map_map]
      congr 1
      exact List.map_congr_left
        (fun r _ => markIf_cons_ok fetch g rest r hko)
    | httpError msg =>
      have hko : okFetch fetch g = false := by
        simp [okFetch, hfetch]
      simp only [process_groups, hfetch]
      rw [ih hrest _]
      congr 1
      exact List.map_congr_left
        (fun r _ => markIf_cons_fail fetch g rest r hko)
    | badJson => exact absurd hfetch (hok g (List.mem_cons_self g rest))

instance : IsTotal EventGroupRow
    (fun a b => a.received_at ≤ b.received_at) :=
  ⟨fun a b => Nat.le_total a.received_at b.received_at⟩

instance : IsTrans EventGroupRow
    (fun a b => a.received_at ≤ b.received_at) :=
  ⟨fun _ _ _ => Nat.le_trans⟩

/-- Two pending event groups for `alice`, arrived at 1 and 2. -/
def egRowA : EventGroupRow :=
  { username := "alice", monitor_id := "M1", event_group_id := "GA",
    metadata := none, received_at := 1, processed := false }

/-- See `egRowA`. -/
def egRowB : EventGroupRow :=
  { username := "alice", monitor_id := "M1", event_group_id := "GB",
    metadata := none, received_at := 2, processed := false }

/-- The C7 counterexample state. -/
def db7 : MonitorDB := ⟨[aliceRow], [egRowA, egRowB]⟩

/-- The C7 counterexample oracle: group `GA` answers 200 with a body
that is not valid JSON; any other group fetch succeeds with no events. -/
def fetchBad : String → String → FetchResult :=
  fun _ g => if g = "GA" then .badJson else .ok []

/-- Counterexample to C7 as stated: when the fetch of the first pending
group returns a 2xx response whose body is not valid JSON, the uncaught
`json.JSONDecodeError` kills the generator: no inline error chunk and no
terminal frame are emitted and the remaining group `GB` is left
unprocessed, even though its own fetch would have succeeded. -/
theorem C7_counterexample :
    stream_monitor_events fetchBad 5 (some "k") db7 "alice" = ([], db7)
    ∧ (stream_monitor_events fetchBad 5 (some "k") db7 "alice").1 = []
    ∧ egRowB ∈ (stream_monitor_events fetchBad 5 (some "k") db7
        "alice").2.groups
    ∧ fetchBad egRowB.monitor_id egRowB.event_group_id = .ok [] :=
  ⟨rfl, rfl, by decide, by decide⟩

/-- C7 amended: provided the API key is set and every pending group's
fetch either succeeds or raises `httpx.HTTPError` (no 2xx non-JSON
body), the pull handles the pending groups in ascending `received_at`
order; the emitted stream is exactly the in-order concatenation of each
group's frames — event chunks for fetched groups, one inline error
chunk for each failed one — followed by the terminal frame; the stored
rows afterwards are the old rows with `processed := true` exactly on
ids whose fetch succeeded; and a row whose id had no successful fetch
is still present unchanged (pending for a later retry). -/
theorem C7_monitor_pull (fetch : String → String → FetchResult)
    (now : Nat) (key : Option String) (db : MonitorDB) (u : String)
    (hkey : optTruthy key = true)
    (hok : ∀ g ∈ fetch_unprocessed_event_groups db.groups u,
      fetch g.monitor_id g.event_group_id ≠ .badJson)
    (hne : fetch_unprocessed_event_groups db.groups u ≠ []) :
    (fetch_unprocessed_event_groups db.groups u).Pairwise
      (fun a b => a.received_at ≤ b.received_at)
    ∧ (stream_monitor_events fetch now key db u).1
      = (fetch_unprocessed_event_groups db.groups u).flatMap
          (perGroupFrames fetch now) ++ [Frame.done]
    ∧ (stream_monitor_events fetch now key db u).2
      = { tokens := db.tokens,
          groups := db.groups.map
            (markIf fetch (fetch_unprocessed_event_groups db.groups u)) }
    ∧ (∀ r ∈ db.groups,
        shouldMark fetch (fetch_unprocessed_event_groups db.groups u)
          r.event_group_id = false →
        r ∈ (stream_monitor_events fetch now key db u).2.groups) := by
  have hframes := process_groups_frames fetch now
    (fetch_unprocessed_event_groups db.groups u) hok db
  have hdone := process_groups_done fetch now
    (fetch_unprocessed_event_groups db.groups u) hok db
  have hdb := process_groups_db fetch now
    (fetch_unprocessed_event_groups db.groups u) hok db
  have hempty : (fetch_unprocessed_event_groups db.groups u).isEmpty
      = false := List.isEmpty_eq_false.mpr hne
  have hstream : stream_monitor_events fetch now key db u
      = ((fetch_unprocessed_event_groups db.groups u).flatMap
          (perGroupFrames fetch now) ++ [Frame.done],
         { tokens := db.tokens,
           groups := db.groups.map
             (markIf fetch (fetch_unprocessed_event_groups db.groups u)) }) := by
    rw [show stream_monitor_events fetch now key db u
        = (if ¬ optTruthy key then ([.data (noApiKeyChunk now), .done], db)
           else if (fetch_unprocessed_event_groups db.groups u).isEmpty then
             ([.data (noEventsChunk now), .done], db)
           else if (process_groups fetch now
               (fetch_unprocessed_event_groups db.groups u) db).2.2 then
             ((process_groups fetch now
                (fetch_unprocessed_event_groups db.groups u) db).1
               ++ [.done],
              (process_groups fetch now
                (fetch_unprocessed_event_groups db.groups u) db).2.1)
           else ((process_groups fetch now
               (fetch_unprocessed_event_groups db.groups u) db).1,
             (process_groups fetch now
               (fetch_unprocessed_event_groups db.groups u) db).2.1))
      from rfl]
    rw [if_neg (by simp [hkey]), if_neg (by simp [hempty]), if_pos hdone,
      hframes, hdb]
  refine ⟨?_, ?_, ?_, ?_⟩
  · exact List.sorted_insertionSort _ _
  · rw [hstream]
  · rw [hstream]
  · intro r hr hmark
    rw [hstream]
    exact List.mem_map.mpr ⟨r, hr, by simp [markIf, hmark]⟩

/-- Witness for C7: `GA` fails with an HTTP error, `GB` succeeds with
one event; the stream is the inline error chunk, the event chunk and the
terminal frame, and only `GB` is marked processed. -/
theorem C7_monitor_pull_witness :
    (stream_monitor_events
        (fun _ g => if g = "GA" then .httpError "boom"
                    else .ok [⟨"out", "2026-10-12", []⟩])
        5 (some "k") db7 "alice").1
      = [.data (fetchErrorChunk 5 "GA" "boom"),
         .data (monitorEventChunk "GB" 5 0 true ⟨"out", "2026-10-12", []⟩),
         Frame.done]
    ∧ (stream_monitor_events
        (fun _ g => if g = "GA" then .httpError "boom"
                    else .ok [⟨"out", "2026-10-12", []⟩])
        5 (some "k") db7 "alice").2
      = { tokens := [aliceRow],
          groups := [egRowA, { egRowB with processed := true }] } := by
  have h := C7_monitor_pull
    (fun _ g => if g = "GA" then .httpError "boom"
                else .ok [⟨"out", "2026-10-12", []⟩])
    5 (some "k") db7 "alice" (by decide) (by decide) (by decide)
  refine ⟨by rw [h.2.1]; rfl, by rw [h.2.2.1]; rfl⟩

end LLMWrapper
